import Mathlib

/-!
# Verification of the embedra vector-store / ingestion pipeline

Shallow embedding of the core of the `embedra` repository:

* table-name validation (`src/utils/vector_store.py::PostgresVectorStore.__validate_table_name`
  and `src/vector_database/pgvector/repositories/core.py::PgVectorRepositoryCore._validate_table_name`,
  both of which evaluate the truthiness of `re.match(r"^[a-zA-Z0-9_]+$", table_name)`),
* the file-status reconciler (`src/celery_tasks/tasks.py::check_file_status`),
* the per-document embedding job (`src/celery_tasks/tasks.py::embed_doc`),
* the extraction stage (`src/celery_tasks/tasks.py::extract_file`),
* the similarity search (`src/utils/vector_store.py::PostgresVectorStore.similarity_search`),
* the table registry state (`src/utils/vector_store.py::LRUCache`, `PostgresVectorStore.get_vector_model`,
  `PostgresVectorStore.drop_vector_table`).
-/

namespace Embedra

/-! ## Table-name validation -/

/-- The character class `[a-zA-Z0-9_]` of the validation regex. -/
def isWordChar (c : Char) : Bool :=
  (('A' ≤ c) && (c ≤ 'Z')) || (('a' ≤ c) && (c ≤ 'z')) || (('0' ≤ c) && (c ≤ '9')) || (c == '_')

/-- Truthiness of Python `re.match(r"^[a-zA-Z0-9_]+$", s)` (no flags).

Python semantics: the match is anchored at the start, `[a-zA-Z0-9_]+` consumes a
non-empty run of word characters, and `$` (without `re.MULTILINE`) matches at the
end of the string *or just before a newline at the end of the string*.  Since a
newline is not a word character, the pattern matches `s` exactly when the maximal
word-character prefix of `s` is non-empty and what remains after it is either
empty or the single character `"\n"`. -/
def re_match_word_anchored (s : List Char) : Bool :=
  let run := s.takeWhile isWordChar
  let rest := s.dropWhile isWordChar
  (!run.isEmpty) && (rest.isEmpty || rest == ['\n'])

/-- `PostgresVectorStore.__validate_table_name` / `PgVectorRepositoryCore._validate_table_name`:
both return/guard on the truthiness of `re.match(r"^[a-zA-Z0-9_]+$", table_name)`. -/
def validate_table_name (s : String) : Bool :=
  re_match_word_anchored s.data

/-! ## File and document statuses -/

/-- `DocumentEmbeddingStatus` from `src/vector_database/pgvector/model/factory.py`
(the per-document status enum referenced by `src/celery_tasks/tasks.py` as
`EmbeddingStatus`; the spec lists the same three states pending/success/failed). -/
inductive EmbeddingStatus
  | PENDING
  | SUCCESS
  | FAILED
deriving DecidableEq, Repr

/-- `FileStatus` from `src/schemas/file.py`: exactly the six members declared there. -/
inductive FileStatus
  | UPLOADED
  | CHUNKED
  | CHUNK_FAILED
  | EMBEDDING
  | SUCCESS
  | FAILED
deriving DecidableEq, Repr

/-- Python attribute access `FileStatus.<name>` on the `FileStatus` enum class.
Accessing a name that is not a member raises `AttributeError`, modelled as `none`.
Note that `src/schemas/file.py` declares **no** member named
`EMBEDDING_PARTIAL_FAILED`, although `src/celery_tasks/tasks.py` line 31 accesses
`FileStatus.EMBEDDING_PARTIAL_FAILED`. -/
def fileStatusMember : String → Option FileStatus
  | "UPLOADED" => some .UPLOADED
  | "CHUNKED" => some .CHUNKED
  | "CHUNK_FAILED" => some .CHUNK_FAILED
  | "EMBEDDING" => some .EMBEDDING
  | "SUCCESS" => some .SUCCESS
  | "FAILED" => some .FAILED
  | _ => none

/-! ## Status reconciler (`check_file_status`, src/celery_tasks/tasks.py lines 16-35)

The function loads the file row and the document rows of the file's vector table,
computes a new status, and commits it only when it differs from the persisted one:

    new_status = FileStatus.EMBEDDING
    if all(doc.status == EmbeddingStatus.SUCCESS for doc in docs):
        new_status = FileStatus.SUCCESS
    elif any(doc.status == EmbeddingStatus.FAILED for doc in docs):
        new_status = FileStatus.EMBEDDING_PARTIAL_FAILED
    else:
        new_status = FileStatus.EMBEDDING
    if file.status != new_status:
        file.status = new_status
        session.commit()

(The initial assignment `new_status = FileStatus.EMBEDDING` touches an attribute
that exists, so it has no observable effect of its own and is folded into the
final branch.)  We model one run as a function of the document statuses and the
file's current persisted status.  The result is `none` when the run raises
(`AttributeError` from the missing `EMBEDDING_PARTIAL_FAILED` member, in which
case no write happens), and `some (status, wrote)` otherwise, where `status` is
the persisted file status after the run and `wrote` says whether a commit
was issued. -/
def compute_new_status (docs : List EmbeddingStatus) : Option FileStatus :=
  if docs.all (· == EmbeddingStatus.SUCCESS) then fileStatusMember "SUCCESS"
  else if docs.any (· == EmbeddingStatus.FAILED) then fileStatusMember "EMBEDDING_PARTIAL_FAILED"
  else fileStatusMember "EMBEDDING"

/-- The final conditional write of `check_file_status`:
`if file.status != new_status: file.status = new_status; session.commit()`.
Returns the persisted status after the run and whether a commit was issued. -/
def commit_if_changed (cur new_status : FileStatus) : FileStatus × Bool :=
  if cur == new_status then (cur, false) else (new_status, true)

/-- One run of `check_file_status` (see the module comment above for the `none`
convention for the raising run). -/
def check_file_status (docs : List EmbeddingStatus) (cur : FileStatus) :
    Option (FileStatus × Bool) :=
  (compute_new_status docs).map (commit_if_changed cur)

/-! ## Per-document embedding job (`embed_doc`, src/celery_tasks/tasks.py lines 38-79)

    VectorOrm = VectorStore.get_vector_model(table_name=table_name)
    if not VectorOrm:
        raise ValueError(...)
    with Session() as session:
        try:
            doc = session.query(VectorOrm).filter(VectorOrm.id == doc_id).one()
            file = session.query(File).filter(File.id == doc.file_id).one()
            collection = session.query(Collection).filter(...).one()
            embedding_model = get_embedding_model_by_provider_name(...)
            doc.embedding = embedding_model.embed_query(doc.text)
            doc.status = EmbeddingStatus.SUCCESS
            session.commit()
        except Exception:
            doc.status = EmbeddingStatus.FAILED
            session.commit()
            raise
        finally:
            check_file_status(file_id=doc.file_id, table_name=table_name)

Each fallible collaborator call is a parameter of the model (its result is an
`Except`, `.error` meaning the call raised).  Two Python subtleties are modelled
exactly:

* If the very first statement of the `try` raises, the local `doc` is unbound,
  so both the `except` clause (`doc.status = ...`) and the `finally` clause
  (`doc.file_id`) raise `UnboundLocalError`: nothing is persisted, the original
  exception is lost, and `check_file_status` is never entered.
* The `finally` clause runs `check_file_status`, which re-queries the file's
  documents (now containing this document's committed status) and — per the
  model above — raises `AttributeError` whenever any of them is `FAILED`; an
  exception raised in a `finally` clause replaces any pending exception. -/

/-- Exceptions propagated out of the tasks, as discriminated by the claims. -/
inductive PyError
  | raised (tag : String)
  | unboundLocalError
  | attributeError
  | valueErrorModelNotFound
  | valueErrorInvalidTableName
  | valueErrorTableNotFound
  | valueErrorNoDimension
deriving DecidableEq, Repr

/-- A row of a per-collection vector table, as read and written by `embed_doc`
(schema from `src/vector_database/pgvector/model/factory.py`: `embedding` is
nullable, `status` defaults to `PENDING`).  Vector entries are modelled as
integers; no claim inspects their numeric values. -/
structure EmbDoc where
  file_id : String
  text : String
  embedding : Option (List Int)
  status : EmbeddingStatus
deriving DecidableEq, Repr

/-- The embedding configuration of a `Collection` row
(`src/database/models/collection.py` / `src/schemas/embedding.py`):
provider name, model name, and the optional configured dimensionality from
`embedding_model_metadata.dimensions`. -/
structure CollectionRec where
  embedding_model_provider : String
  embedding_model : String
  dimensions : Option Nat
deriving DecidableEq, Repr

/-- One invocation of `embed_doc`, with the outcome of every fallible
collaborator call as a parameter, plus the state `check_file_status` sees:
`siblings` are the statuses of the other documents of the owning file as
re-queried by the reconciler, `fileStatus` the file's persisted status. -/
structure EmbedInput where
  /-- truthiness of `VectorStore.get_vector_model(table_name=table_name)` -/
  modelFound : Bool
  /-- `session.query(VectorOrm).filter(VectorOrm.id == doc_id).one()` -/
  docLookup : Except String EmbDoc
  /-- `session.query(File).filter(File.id == doc.file_id).one()` -/
  fileLookup : Except String Unit
  /-- `session.query(Collection).filter(Collection.id == file.collection_id).one()` -/
  collectionLookup : Except String CollectionRec
  /-- `get_embedding_model_by_provider_name(provider_name=..., model_name=..., metadata=...)` -/
  getEmbeddingModel : CollectionRec → Except String Unit
  /-- `embedding_model.embed_query(doc.text)` -/
  embedQuery : String → Except String (List Int)
  /-- statuses of the owning file's other documents, as seen by the reconciler -/
  siblings : List EmbeddingStatus
  /-- the file's persisted status when the reconciler reads it -/
  fileStatus : FileStatus

/-- Observable outcome of one `embed_doc` run. -/
structure EmbedOutcome where
  /-- committed state of the document row (`none`: the row was never loaded and
  nothing was written to it) -/
  doc : Option EmbDoc
  /-- whether `check_file_status` was entered -/
  reconciled : Bool
  /-- the file's persisted status when the run finishes -/
  fileStatusAfter : FileStatus
  /-- what propagates to the caller (`none` = normal return) -/
  error : Option PyError
deriving DecidableEq, Repr

/-- The `try`/`except` body of `embed_doc` once `doc` is loaded: returns the
committed document row together with the pending exception (`none` on the
success path).  On failure the `except` clause commits `status = FAILED` with
the embedding left as it was (null in the normal pipeline). -/
def embed_attempt (inp : EmbedInput) (d : EmbDoc) : EmbDoc × Option PyError :=
  match inp.fileLookup with
  | .error e => ({ d with status := EmbeddingStatus.FAILED }, some (.raised e))
  | .ok _ =>
    match inp.collectionLookup with
    | .error e => ({ d with status := EmbeddingStatus.FAILED }, some (.raised e))
    | .ok c =>
      match inp.getEmbeddingModel c with
      | .error e => ({ d with status := EmbeddingStatus.FAILED }, some (.raised e))
      | .ok _ =>
        match inp.embedQuery d.text with
        | .error e => ({ d with status := EmbeddingStatus.FAILED }, some (.raised e))
        | .ok v =>
          ({ d with embedding := some v, status := EmbeddingStatus.SUCCESS }, none)

/-- One `embed_doc` run (see the module comment above for the line-by-line
source). -/
def embed_doc (inp : EmbedInput) : EmbedOutcome :=
  if inp.modelFound then
    match inp.docLookup with
    | .error _ =>
      -- `doc` unbound: `except` and `finally` both raise UnboundLocalError;
      -- nothing is persisted and the reconciler is never entered.
      { doc := none, reconciled := false, fileStatusAfter := inp.fileStatus,
        error := some .unboundLocalError }
    | .ok d =>
      -- finally: check_file_status re-queries the documents, which now
      -- include this row's committed status.
      match check_file_status (inp.siblings ++ [(embed_attempt inp d).1.status]) inp.fileStatus with
      | none =>
        -- AttributeError inside the finally clause replaces any pending exception
        { doc := some (embed_attempt inp d).1, reconciled := true,
          fileStatusAfter := inp.fileStatus, error := some .attributeError }
      | some (st, _) =>
        { doc := some (embed_attempt inp d).1, reconciled := true,
          fileStatusAfter := st, error := (embed_attempt inp d).2 }
  else
    -- `raise ValueError(f"Vector model for table ... not found")`
    { doc := none, reconciled := false, fileStatusAfter := inp.fileStatus,
      error := some .valueErrorModelNotFound }

/-! ## Extraction stage (`extract_file`, src/celery_tasks/tasks.py lines 100-139)

    with Session() as session:
        try:
            file = session.query(File).filter(File.id == file_id).one()
            result = markitdown_converter(source=file.path)
            docs = split_markdown(result.markdown)
            VectorOrm = VectorStore.get_vector_model(table_name=table_name)
            for doc in docs:
                row = VectorOrm(text=..., file_id=..., meta=...)
                session.add(row)
            file.status = FileStatus.CHUNKED
            session.commit()
            embed_documents.apply_async(...)
        except Exception as e:
            file.status = FileStatus.CHUNK_FAILED
            session.commit()
            raise e

As in `embed_doc`, if the first statement of the `try` raises, the local `file`
is unbound and the `except` clause itself raises `UnboundLocalError`: no status
is written and the original exception is lost. -/

/-- One invocation of `extract_file`, with the outcome of each fallible step as
a parameter. -/
structure ExtractInput where
  /-- `session.query(File).filter(File.id == file_id).one()` -/
  fileLookup : Except String Unit
  /-- `markitdown_converter(source=file.path)` followed by `.markdown` -/
  convert : Except String String
  /-- `split_markdown(result.markdown)`, yielding the chunk texts -/
  splitMarkdown : String → Except String (List String)
  /-- resolving `VectorOrm` and constructing/adding one row per chunk -/
  persistDocs : List String → Except String Unit

/-- Observable outcome of one `extract_file` run. -/
structure ExtractOutcome where
  /-- `File.status` written and committed by this run (`none` = no write) -/
  written : Option FileStatus
  /-- what propagates to the caller (`none` = normal return) -/
  error : Option PyError
  /-- whether `embed_documents.apply_async` was reached -/
  enqueued : Bool
deriving DecidableEq, Repr

/-- The `except` clause of `extract_file`: commit `CHUNK_FAILED`, re-raise. -/
def extract_fail (e : String) : ExtractOutcome :=
  { written := some FileStatus.CHUNK_FAILED, error := some (.raised e), enqueued := false }

/-- One `extract_file` run (see the module comment above for the source). -/
def extract_file (inp : ExtractInput) : ExtractOutcome :=
  match inp.fileLookup with
  | .error _ =>
    -- `file` unbound in the except clause: UnboundLocalError, no write.
    { written := none, error := some .unboundLocalError, enqueued := false }
  | .ok _ =>
    match inp.convert with
    | .error e => extract_fail e
    | .ok md =>
      match inp.splitMarkdown md with
      | .error e => extract_fail e
      | .ok chunks =>
        match inp.persistDocs chunks with
        | .error e => extract_fail e
        | .ok _ =>
          { written := some FileStatus.CHUNKED, error := none, enqueued := true }

/-! ### Concrete runs used by the claims -/

/-- A pending document row. -/
def docPending : EmbDoc :=
  { file_id := "f1", text := "hello", embedding := none, status := EmbeddingStatus.PENDING }

/-- A collection configured for dimensionality 5. -/
def collDim5 : CollectionRec :=
  { embedding_model_provider := "openai",
    embedding_model := "text-embedding-3-small",
    dimensions := some 5 }

/-- An `embed_doc` run whose initial document query raises (for example a
transient database error, reported by SQLAlchemy as an exception from
`.one()`). -/
def embedDocQueryFails : EmbedInput :=
  { modelFound := true
    docLookup := .error "OperationalError"
    fileLookup := .ok ()
    collectionLookup := .ok collDim5
    getEmbeddingModel := fun _ => .ok ()
    embedQuery := fun _ => .ok [1, 2, 3]
    siblings := []
    fileStatus := FileStatus.EMBEDDING }

/-- An `embed_doc` run where the document loads but the provider call raises. -/
def embedProviderFails : EmbedInput :=
  { modelFound := true
    docLookup := .ok docPending
    fileLookup := .ok ()
    collectionLookup := .ok collDim5
    getEmbeddingModel := fun _ => .ok ()
    embedQuery := fun _ => .error "ProviderTimeout"
    siblings := []
    fileStatus := FileStatus.EMBEDDING }

/-- A fully successful `embed_doc` run whose provider returns a 3-dimensional
vector while the owning collection's configured dimensionality is 5. -/
def embedWrongDim : EmbedInput :=
  { modelFound := true
    docLookup := .ok docPending
    fileLookup := .ok ()
    collectionLookup := .ok collDim5
    getEmbeddingModel := fun _ => .ok ()
    embedQuery := fun _ => .ok [1, 2, 3]
    siblings := [EmbeddingStatus.SUCCESS]
    fileStatus := FileStatus.EMBEDDING }

/-- An `extract_file` run whose `File` row query raises. -/
def extractFileQueryFails : ExtractInput :=
  { fileLookup := .error "NoResultFound"
    convert := .ok "markdown"
    splitMarkdown := fun md => .ok [md]
    persistDocs := fun _ => .ok () }

/-- An `extract_file` run where the file loads but conversion raises. -/
def extractConvertFails : ExtractInput :=
  { fileLookup := .ok ()
    convert := .error "UnsupportedFormat"
    splitMarkdown := fun md => .ok [md]
    persistDocs := fun _ => .ok () }

/-! ## Similarity search (`PostgresVectorStore.similarity_search`,
src/utils/vector_store.py lines 196-250)

    stmt = select(VectorModel,
                  (1 - VectorModel.embedding.cosine_distance(query_vector))
                      .label("similarity_score"))
               .order_by(VectorModel.embedding.cosine_distance(query_vector))
    if threshold is not None:
        stmt = stmt.filter(
            VectorModel.embedding.cosine_distance(query_vector) < threshold)
    stmt = stmt.limit(top_k)
    # rows are returned as {"id", "text", "metadata", "similarity_score"}

SQL evaluation order is WHERE, then ORDER BY, then LIMIT, regardless of the
builder call order.  The pgvector cosine-distance operator is modelled as an
abstract per-row rational `dist` (the distance of the row's stored embedding to
the query vector): the claims depend only on ordering, filtering and
truncation, never on the numeric value of a cosine.  `ORDER BY cosine_distance`
ascending is the same ordering as `similarity_score = 1 - cosine_distance`
descending.  Ties keep store-native order (declared non-deterministic by the
spec), realised here by a stable insertion sort. -/

/-- A stored row of a vector table as read by the search (id, text, metadata;
the embedding itself only enters through `dist`). -/
structure VRow where
  id : String
  text : String
  meta : Option String
deriving DecidableEq, Repr

/-- One element of the search result:
`{"id": ..., "text": ..., "metadata": ..., "similarity_score": ...}`. -/
structure SearchHit where
  id : String
  text : String
  meta : Option String
  similarity_score : ℚ
deriving DecidableEq, Repr

/-- Stable insertion into a list sorted ascending by `key`. -/
def insertAsc {α : Type} (key : α → ℚ) (x : α) : List α → List α
  | [] => [x]
  | y :: ys => if key y ≤ key x then y :: insertAsc key x ys else x :: y :: ys

/-- Stable sort, ascending by `key` (the `ORDER BY cosine_distance`). -/
def sortAsc {α : Type} (key : α → ℚ) : List α → List α
  | [] => []
  | x :: xs => insertAsc key x (sortAsc key xs)

/-- `PostgresVectorStore.similarity_search` on a table whose rows are `rows`
and whose cosine distance to the query vector is `dist`. -/
def similarity_search (rows : List VRow) (dist : VRow → ℚ) (top_k : Nat)
    (threshold : Option ℚ) : List SearchHit :=
  let filtered := match threshold with
    | none => rows
    -- stmt.filter(cosine_distance(query_vector) < threshold)
    | some t => rows.filter fun r => decide (dist r < t)
  let sorted := sortAsc dist filtered
  (sorted.take top_k).map fun r =>
    { id := r.id, text := r.text, meta := r.meta, similarity_score := 1 - dist r }

/-- The single row of the C3 scenario table. -/
def rowR1 : VRow := { id := "r1", text := "refund policy", meta := none }

/-- A distance assignment giving `rowR1` cosine distance 1/2
(hence similarity 1/2). -/
def distHalf : VRow → ℚ := fun _ => 1/2

/-! ## Vector-table registry state (`src/utils/vector_store.py`)

`PostgresVectorStore` holds an `LRUCache` of table-name → mapped-class handles
next to the physical tables.  A handle is regenerable from the physical table's
name and embedding dimension, so it is modelled as that pair.  The physical
store is a list of `(table name, embedding-column vector dimension)`; the
dimension is `none` when introspection cannot determine it (no `Vector`-typed
`embedding` column). -/

/-- A cached table handle: the dynamically mapped class for a table, determined
by the table name and the embedding dimension. -/
structure VectorHandle where
  table : String
  dim : Nat
deriving DecidableEq, Repr

/-- `LRUCache` (src/utils/vector_store.py lines 13-35): an ordered map, least
recently used first. -/
structure LRU where
  maxSize : Nat
  entries : List (String × VectorHandle)
deriving DecidableEq, Repr

/-- Key lookup in the underlying ordered map. -/
def lruLookup (es : List (String × VectorHandle)) (k : String) : Option VectorHandle :=
  (es.find? fun p => p.1 == k).map fun p => p.2

/-- `LRUCache.get`: on a hit, `move_to_end` then return the value. -/
def lruGet (c : LRU) (k : String) : Option VectorHandle × LRU :=
  match lruLookup c.entries k with
  | none => (none, c)
  | some v =>
    (some v, { c with entries := (c.entries.filter fun p => !(p.1 == k)) ++ [(k, v)] })

/-- `LRUCache.set`: `move_to_end` if present, assign at the most-recent end,
then `popitem(last=False)` when the size bound is exceeded. -/
def lruSet (c : LRU) (k : String) (v : VectorHandle) : LRU :=
  let es := (c.entries.filter fun p => !(p.1 == k)) ++ [(k, v)]
  { c with entries := if c.maxSize < es.length then es.drop 1 else es }

/-- `LRUCache.drop`: `self._cache.pop(key, None)`. -/
def lruDrop (c : LRU) (k : String) : LRU :=
  { c with entries := c.entries.filter fun p => !(p.1 == k) }

/-- The state of one `PostgresVectorStore` together with the database it
manages. -/
structure StoreState where
  cache : LRU
  tables : List (String × Option Nat)
deriving DecidableEq, Repr

/-- `sync_conn.dialect.has_table(...)` / `inspector.has_table(...)`. -/
def hasTable (ts : List (String × Option Nat)) (name : String) : Bool :=
  (ts.find? fun p => p.1 == name).isSome

/-- The cache part of `drop_vector_table`:
`cached = self._model_cache.get(table_name); if cached: self._model_cache.drop(table_name)`. -/
def drop_cache_entry (c : LRU) (k : String) : LRU :=
  match lruGet c k with
  | (some _, c1) => lruDrop c1 k
  | (none, c1) => c1

/-- `sync_drop_table`: drop the physical table if it exists (whether through
the metadata object or a raw `DROP TABLE IF EXISTS`, the net effect on the
physical store is the same); absent tables are left alone without error. -/
def drop_physical (ts : List (String × Option Nat)) (name : String) :
    List (String × Option Nat) :=
  if hasTable ts name then ts.filter fun p => !(p.1 == name) else ts

/-- `PostgresVectorStore.drop_vector_table` (lines 164-194): validate, evict
the cache entry, drop the physical table if present, return `True`. -/
def drop_vector_table (s : StoreState) (name : String) :
    Except PyError (StoreState × Bool) :=
  if validate_table_name name then
    .ok ({ cache := drop_cache_entry s.cache name,
           tables := drop_physical s.tables name }, true)
  else .error .valueErrorInvalidTableName

/-- `PostgresVectorStore.get_vector_model` (lines 130-162): validate, serve the
cached handle on a hit; on a miss introspect the physical table — raising the
`ValueError` "Table ... does not exist" when it is absent and the `ValueError`
"Could not determine dimension" when no vector dimension is found — and
rebuild (and re-cache) the handle. -/
def get_vector_model (s : StoreState) (name : String) :
    Except PyError (StoreState × VectorHandle) :=
  if validate_table_name name then
    match lruGet s.cache name with
    | (some h, c1) => .ok ({ s with cache := c1 }, h)
    | (none, _) =>
      match s.tables.find? fun p => p.1 == name with
      | none => .error .valueErrorTableNotFound
      | some p =>
        match p.2 with
        | none => .error .valueErrorNoDimension
        | some dim =>
          .ok ({ s with cache := lruSet s.cache name { table := name, dim := dim } },
               { table := name, dim := dim })
  else .error .valueErrorInvalidTableName

/-- A concrete store with one cached handle and one physical table. -/
def storeDemo : StoreState :=
  { cache := { maxSize := 512, entries := [("demo", { table := "demo", dim := 3 })] }
    tables := [("demo", some 3)] }

end Embedra

namespace Embedra

/-! ## Claims about the validator and the reconciler -/

/-- **C1.** The table-name validator is claimed to accept exactly the non-empty
strings over `[A-Za-z0-9_]`, rejecting in particular `"abc\n"`.  The code
evaluated at the failing input: `re.match(r"^[a-zA-Z0-9_]+$", "abc\n")` is
truthy because `$` also matches just before a trailing newline, so the
validator *accepts* `"abc\n"` even though `'\n'` is outside the allowed class —
contradicting the validator's own docstring ("Only alphanumeric characters and
underscores are allowed"). -/
theorem C1_validator_accepts_trailing_newline :
    validate_table_name "abc\n" = true ∧
      '\n' ∈ "abc\n".data ∧ isWordChar '\n' = false := by
  decide

/-- **C2.** The reconciler is claimed to set `EMBEDDING_PARTIAL_FAILED` and
terminate normally on document statuses `{SUCCESS, SUCCESS, FAILED}`.  The code
evaluated at that failing input: since `FileStatus` (src/schemas/file.py) has no
member `EMBEDDING_PARTIAL_FAILED`, the attribute access on line 31 of
src/celery_tasks/tasks.py raises `AttributeError` (`none`), and no status is
persisted. -/
theorem C2_reconciler_raises_on_partial_failure :
    check_file_status [EmbeddingStatus.SUCCESS, EmbeddingStatus.SUCCESS, EmbeddingStatus.FAILED]
      FileStatus.EMBEDDING = none := by
  decide

/-- **C10.** For a file whose vector table contains zero documents, the
reconciler terminates normally and sets the file status to `SUCCESS` (the
`all(...)` check is vacuously true over the empty set), committing exactly when
the persisted status was not already `SUCCESS`. -/
theorem C10_empty_file_reconciles_to_success (cur : FileStatus) :
    check_file_status [] cur = some (FileStatus.SUCCESS, !(cur == FileStatus.SUCCESS)) := by
  cases cur <;> decide

/-- The conditional write always leaves the computed status persisted. -/
theorem commit_if_changed_fst (cur new_status : FileStatus) :
    (commit_if_changed cur new_status).1 = new_status := by
  unfold commit_if_changed
  split
  · next h => exact beq_iff_eq.mp h
  · rfl

/-- **C7.** Idempotence of the reconciler: if one run terminates normally with
persisted status `p.1`, a second run on the same document set starting from
`p.1` computes the same status and issues no write. -/
theorem C7_reconciler_idempotent (docs : List EmbeddingStatus) (cur : FileStatus)
    (p : FileStatus × Bool) (h : check_file_status docs cur = some p) :
    check_file_status docs p.1 = some (p.1, false) := by
  unfold check_file_status at h ⊢
  cases hm : compute_new_status docs with
  | none => rw [hm] at h; simp at h
  | some n =>
    rw [hm] at h
    simp only [Option.map_some'] at h ⊢
    have h1 : p.1 = n := by
      rw [← Option.some.inj h]
      exact commit_if_changed_fst cur n
    rw [h1]
    simp [commit_if_changed]

/-- Witness for C7 at a concrete input: one document with status `SUCCESS`,
file currently `EMBEDDING`; the first run persists `SUCCESS` with a write, and
the theorem yields that the second run returns `SUCCESS` without a write. -/
theorem C7_reconciler_idempotent_witness :
    check_file_status [EmbeddingStatus.SUCCESS] FileStatus.SUCCESS
      = some (FileStatus.SUCCESS, false) :=
  C7_reconciler_idempotent [EmbeddingStatus.SUCCESS] FileStatus.EMBEDDING
    (FileStatus.SUCCESS, true) (by decide)

/-! ## Claims about the embedding job and the extraction stage -/

/-- If the `try` body returns without a pending exception once the document is
loaded, it was the success path: the committed row carries the provider's
vector and status `SUCCESS`. -/
theorem embed_attempt_of_ok (inp : EmbedInput) (d : EmbDoc) (v : List Int)
    (hq : inp.embedQuery d.text = Except.ok v)
    (h : (embed_attempt inp d).2 = none) :
    (embed_attempt inp d).1
      = { d with embedding := some v, status := EmbeddingStatus.SUCCESS } := by
  cases hf : inp.fileLookup with
  | error e => simp [embed_attempt, hf] at h
  | ok u =>
    cases hc : inp.collectionLookup with
    | error e => simp [embed_attempt, hf, hc] at h
    | ok c =>
      cases hg : inp.getEmbeddingModel c with
      | error e => simp [embed_attempt, hf, hc, hg] at h
      | ok u2 => simp [embed_attempt, hf, hc, hg, hq]

/-- **C4.** The claim: on any exception during the attempt — including a
failure of the initial document query — `embed_doc` persists status `FAILED`
(embedding left null) and re-raises the exception.  The code evaluated at two
failing inputs: (1) when the document query itself raises, the `except` clause
references the unbound local `doc`, so an `UnboundLocalError` propagates,
nothing is persisted, and the original exception is lost; (2) when the provider
call raises, `FAILED` is committed, but the `finally` clause's
`check_file_status` then raises `AttributeError` (the missing
`EMBEDDING_PARTIAL_FAILED` member is reached because this document is now
`FAILED`), which replaces the re-raised original exception.  In neither case
does the caller observe the behaviour the claim states. -/
theorem C4_embed_failure_handling_divergence :
    embed_doc embedDocQueryFails
      = { doc := none, reconciled := false, fileStatusAfter := FileStatus.EMBEDDING,
          error := some PyError.unboundLocalError } ∧
    embed_doc embedProviderFails
      = { doc := some { docPending with status := EmbeddingStatus.FAILED },
          reconciled := true, fileStatusAfter := FileStatus.EMBEDDING,
          error := some PyError.attributeError } := by
  exact ⟨rfl, rfl⟩

/-- **C5.** The claim: any failure in loading the file, converting, chunking or
persisting transitions `File.status` to `CHUNK_FAILED` and re-raises.  The code
evaluated at the failing input where the `File` row query raises: the `except`
clause references the unbound local `file`, so an `UnboundLocalError`
propagates and no status is written. -/
theorem C5_extract_load_failure_divergence :
    extract_file extractFileQueryFails
      = { written := none, error := some PyError.unboundLocalError, enqueued := false } := by
  exact rfl

/-- **C6 counterexample.** A terminating `embed_doc` execution (the document
query raises, the run terminates by raising `UnboundLocalError`) that never
invokes `check_file_status`, contradicting the claim that every terminating
execution invokes the reconciler. -/
theorem C6_counterexample_reconciler_skipped :
    (embed_doc embedDocQueryFails).reconciled = false ∧
      (embed_doc embedDocQueryFails).error = some PyError.unboundLocalError := by
  exact ⟨rfl, rfl⟩

/-- **C6 (amended).** Every `embed_doc` execution that successfully loads the
document invokes the reconciler before finishing (success or failure), and
whenever that reconciler run terminates normally the file's persisted status is
the recomputed one; executions that fail before the document row is loaded
terminate without invoking it. -/
theorem C6_amended_reconciler_invoked_after_load (inp : EmbedInput) (d : EmbDoc)
    (hm : inp.modelFound = true) (hd : inp.docLookup = Except.ok d) :
    (embed_doc inp).reconciled = true ∧
    ∃ d2, (embed_doc inp).doc = some d2 ∧
      ∀ p, check_file_status (inp.siblings ++ [d2.status]) inp.fileStatus = some p →
        (embed_doc inp).fileStatusAfter = p.1 := by
  cases hr : check_file_status (inp.siblings ++ [(embed_attempt inp d).1.status]) inp.fileStatus with
  | none =>
    refine ⟨by simp [embed_doc, hm, hd, hr], (embed_attempt inp d).1,
      by simp [embed_doc, hm, hd, hr], ?_⟩
    intro p hp
    rw [hr] at hp
    exact absurd hp (by simp)
  | some q =>
    obtain ⟨st, w⟩ := q
    refine ⟨by simp [embed_doc, hm, hd, hr], (embed_attempt inp d).1,
      by simp [embed_doc, hm, hd, hr], ?_⟩
    intro p hp
    rw [hr] at hp
    have hst : (embed_doc inp).fileStatusAfter = st := by
      simp [embed_doc, hm, hd, hr]
    rw [hst, ← Option.some.inj hp]

/-- Witness for the amended C6 at a concrete input: the provider-failure run
loads the document, so the reconciler is invoked. -/
theorem C6_amended_witness :
    (embed_doc embedProviderFails).reconciled = true ∧
    ∃ d2, (embed_doc embedProviderFails).doc = some d2 ∧
      ∀ p, check_file_status (embedProviderFails.siblings ++ [d2.status])
            embedProviderFails.fileStatus = some p →
        (embed_doc embedProviderFails).fileStatusAfter = p.1 :=
  C6_amended_reconciler_invoked_after_load embedProviderFails docPending rfl rfl

/-- **C8 counterexample.** A fully successful `embed_doc` run (no exception,
status `SUCCESS`) whose persisted embedding has length 3 while the owning
collection's configured dimensionality is 5: the code stores the provider's
vector without checking its length against the configuration, so the claimed
round-trip dimensionality property fails. -/
theorem C8_counterexample_dimension_not_enforced :
    (embed_doc embedWrongDim).error = none ∧
    ((embed_doc embedWrongDim).doc.map fun d => d.status) = some EmbeddingStatus.SUCCESS ∧
    (((embed_doc embedWrongDim).doc.bind fun d => d.embedding).map List.length) = some 3 ∧
    embedWrongDim.collectionLookup = Except.ok collDim5 ∧
    collDim5.dimensions = some 5 ∧ (3 : Nat) ≠ 5 := by
  exact ⟨rfl, rfl, rfl, rfl, rfl, by decide⟩

/-- **C8 (amended).** When an `embed_doc` run returns normally after loading the
document and the provider returned vector `v`, reading the document back yields
status `SUCCESS` and the non-null embedding `v` — exactly the provider's vector,
whose length the code does not check against the collection's configured
dimensionality. -/
theorem C8_amended_roundtrip (inp : EmbedInput) (d : EmbDoc) (v : List Int)
    (hm : inp.modelFound = true) (hd : inp.docLookup = Except.ok d)
    (hq : inp.embedQuery d.text = Except.ok v)
    (he : (embed_doc inp).error = none) :
    (embed_doc inp).doc
      = some { d with embedding := some v, status := EmbeddingStatus.SUCCESS } := by
  cases hr : check_file_status (inp.siblings ++ [(embed_attempt inp d).1.status]) inp.fileStatus with
  | none =>
    have hne : (embed_doc inp).error = some PyError.attributeError := by
      simp [embed_doc, hm, hd, hr]
    rw [hne] at he
    exact absurd he (by simp)
  | some q =>
    obtain ⟨st, w⟩ := q
    have h2 : (embed_doc inp).error = (embed_attempt inp d).2 := by
      simp [embed_doc, hm, hd, hr]
    rw [h2] at he
    have h3 : (embed_doc inp).doc = some (embed_attempt inp d).1 := by
      simp [embed_doc, hm, hd, hr]
    rw [h3, embed_attempt_of_ok inp d v hq he]

/-- Witness for the amended C8 at a concrete input: the successful run with a
3-dimensional provider vector. -/
theorem C8_amended_witness :
    (embed_doc embedWrongDim).doc
      = some { docPending with
               embedding := some ([1, 2, 3]),
               status := EmbeddingStatus.SUCCESS } :=
  C8_amended_roundtrip embedWrongDim docPending [1, 2, 3] rfl rfl rfl rfl

/-! ## Claims about the similarity search -/

/-- Membership through stable insertion. -/
theorem mem_insertAsc {α : Type} (key : α → ℚ) (x : α) (l : List α) (a : α) :
    a ∈ insertAsc key x l ↔ a = x ∨ a ∈ l := by
  induction l with
  | nil => simp [insertAsc]
  | cons y ys ih =>
    by_cases hk : key y ≤ key x
    · simp only [insertAsc, if_pos hk, List.mem_cons, ih]
      tauto
    · simp only [insertAsc, if_neg hk, List.mem_cons]

/-- Stable insertion preserves ascending order. -/
theorem pairwise_insertAsc {α : Type} (key : α → ℚ) (x : α) (l : List α)
    (h : l.Pairwise fun a b => key a ≤ key b) :
    (insertAsc key x l).Pairwise fun a b => key a ≤ key b := by
  induction l with
  | nil => simp [insertAsc]
  | cons y ys ih =>
    rw [List.pairwise_cons] at h
    obtain ⟨hy, hys⟩ := h
    by_cases hk : key y ≤ key x
    · rw [insertAsc, if_pos hk, List.pairwise_cons]
      refine ⟨?_, ih hys⟩
      intro b hb
      rcases (mem_insertAsc key x ys b).mp hb with rfl | hbys
      · exact hk
      · exact hy b hbys
    · rw [insertAsc, if_neg hk, List.pairwise_cons]
      have hxy : key x ≤ key y := le_of_not_le hk
      refine ⟨?_, ?_⟩
      · intro b hb
        rcases List.mem_cons.mp hb with rfl | hbys
        · exact hxy
        · exact le_trans hxy (hy b hbys)
      · rw [List.pairwise_cons]
        exact ⟨hy, hys⟩

/-- The stable sort permutes nothing in or out. -/
theorem mem_sortAsc {α : Type} (key : α → ℚ) (l : List α) (a : α) :
    a ∈ sortAsc key l ↔ a ∈ l := by
  induction l with
  | nil => simp [sortAsc]
  | cons x xs ih => simp only [sortAsc, mem_insertAsc, List.mem_cons, ih]

/-- The stable sort is ascending by its key. -/
theorem pairwise_sortAsc {α : Type} (key : α → ℚ) (l : List α) :
    (sortAsc key l).Pairwise fun a b => key a ≤ key b := by
  induction l with
  | nil => simp [sortAsc]
  | cons x xs ih => exact pairwise_insertAsc key x _ ih

/-- **C3 counterexample.** With threshold 7/10, a row of cosine distance 1/2 —
similarity 1/2, strictly below the threshold — is returned: the code filters
`cosine_distance < threshold`, against the claim that every row whose
similarity is below the threshold is excluded. -/
theorem C3_counterexample_threshold_compares_distance :
    similarity_search [rowR1] distHalf 5 (some (7/10))
      = [{ id := "r1", text := "refund policy", meta := none, similarity_score := 1/2 }] ∧
    (1/2 : ℚ) < 7/10 := by
  constructor
  · norm_num [similarity_search, rowR1, distHalf, sortAsc, insertAsc, List.filter]
  · norm_num

/-- **C3 (amended).** With a threshold `t`, the search returns at most `top_k`
hits, each derived from a table row with its fields and
`similarity_score = 1 - dist`, sorted descending by similarity; the threshold
keeps exactly the rows whose cosine **distance** is strictly below `t` —
equivalently whose similarity is strictly above `1 - t` — not the rows whose
similarity is at least `t`. -/
theorem C3_amended_similarity_search (rows : List VRow) (dist : VRow → ℚ)
    (top_k : Nat) (t : ℚ) :
    (similarity_search rows dist top_k (some t)).length ≤ top_k ∧
    (∀ x ∈ similarity_search rows dist top_k (some t),
        1 - t < x.similarity_score ∧
        ∃ r ∈ rows, dist r < t ∧
          x = { id := r.id, text := r.text, meta := r.meta,
                similarity_score := 1 - dist r }) ∧
    (similarity_search rows dist top_k (some t)).Pairwise
      (fun a b => b.similarity_score ≤ a.similarity_score) := by
  refine ⟨?_, ?_, ?_⟩
  · simp only [similarity_search, List.length_map, List.length_take]
    exact min_le_left _ _
  · intro x hx
    simp only [similarity_search, List.mem_map] at hx
    obtain ⟨r, hr, rfl⟩ := hx
    have hr1 : r ∈ sortAsc dist (rows.filter fun r => decide (dist r < t)) :=
      List.take_subset _ _ hr
    have hr2 : r ∈ rows.filter fun r => decide (dist r < t) :=
      (mem_sortAsc _ _ _).mp hr1
    have hr3 := List.mem_filter.mp hr2
    have hrt : dist r < t := of_decide_eq_true hr3.2
    exact ⟨sub_lt_sub_left hrt 1, r, hr3.1, hrt, rfl⟩
  · simp only [similarity_search]
    exact List.Pairwise.map _ (fun a b hab => sub_le_sub_left hab 1)
      (List.Pairwise.sublist (List.take_sublist _ _) (pairwise_sortAsc dist _))

/-! ## Claims about the table registry -/

/-- Filtering a key out of an association list makes lookup of that key fail. -/
theorem find?_filter_ne {β : Type} (l : List (String × β)) (k : String) :
    ((l.filter fun p => !(p.1 == k)).find? fun p => p.1 == k) = none := by
  rw [List.find?_eq_none]
  intro x hx
  have h2 := (List.mem_filter.mp hx).2
  simp only [Bool.not_eq_true'] at h2
  simp [h2]

/-- After the cache part of `drop_vector_table`, the name misses the cache. -/
theorem lruLookup_drop_cache_entry (c : LRU) (k : String) :
    lruLookup (drop_cache_entry c k).entries k = none := by
  cases hg : lruLookup c.entries k with
  | none =>
    have he : drop_cache_entry c k = c := by
      simp [drop_cache_entry, lruGet, hg]
    rw [he]
    exact hg
  | some v =>
    have he : (drop_cache_entry c k).entries
        = ((c.entries.filter fun p => !(p.1 == k)) ++ [(k, v)]).filter
            fun p => !(p.1 == k) := by
      simp [drop_cache_entry, lruGet, hg, lruDrop]
    unfold lruLookup
    rw [he, find?_filter_ne]
    rfl

/-- After the physical part of `drop_vector_table`, the table is absent. -/
theorem find?_drop_physical (ts : List (String × Option Nat)) (name : String) :
    ((drop_physical ts name).find? fun p => p.1 == name) = none := by
  by_cases hh : hasTable ts name = true
  · rw [drop_physical, if_pos hh]
    exact find?_filter_ne ts name
  · rw [drop_physical, if_neg hh]
    cases hfind : ts.find? fun p => p.1 == name with
    | none => rfl
    | some q => exact absurd (by rw [hasTable, hfind]; rfl) hh

/-- **C9.** For every valid table name and every store state, `drop_vector_table`
returns `True` (it never fails because the table is missing), and an immediate
`get_vector_model` on the resulting state fails with the "Table does not exist"
`ValueError`: the cache entry was evicted, so no stale handle is served, and the
physical table is gone. -/
theorem C9_drop_then_resolve_not_found (s : StoreState) (name : String)
    (hv : validate_table_name name = true) :
    ∃ s2, drop_vector_table s name = Except.ok (s2, true) ∧
      get_vector_model s2 name = Except.error PyError.valueErrorTableNotFound := by
  refine ⟨{ cache := drop_cache_entry s.cache name,
            tables := drop_physical s.tables name }, ?_, ?_⟩
  · simp [drop_vector_table, hv]
  · have h1 := lruLookup_drop_cache_entry s.cache name
    have h2 := find?_drop_physical s.tables name
    simp [get_vector_model, hv, lruGet, h1, h2]

/-- Witness for C9 at a concrete input: a store holding table `demo` with a
cached handle; after the drop, resolving `demo` fails NotFound. -/
theorem C9_drop_then_resolve_witness :
    validate_table_name "demo" = true ∧
    ∃ s2, drop_vector_table storeDemo "demo" = Except.ok (s2, true) ∧
      get_vector_model s2 "demo" = Except.error PyError.valueErrorTableNotFound :=
  ⟨by decide, C9_drop_then_resolve_not_found storeDemo "demo" (by decide)⟩

end Embedra
